import Mathlib

/-
  Verification development for the `devops-qr-code` API service
  (src/api/main.py): a FastAPI app that turns a URL into a QR code PNG
  and uploads it to S3.

  The embedding is shallow and executable:
  * SHA-1 and UTF-8 encoding (used via `hashlib.sha1(url.encode("utf-8"))`)
    are modelled over `Nat` with explicit reduction mod 2^32;
  * the relevant behavior of `urllib.parse.urlparse` (scheme / netloc /
    path / params / query / fragment splitting, including the long-standing
    `ValueError("Invalid IPv6 URL")` on an unbalanced bracket in the
    authority) is modelled over `List Char`;
  * the request handlers (`generate_qr`, `env_check`, `s3_diagnose`) are
    modelled as pure functions over a configuration record and oracles for
    the QR encoder and the S3 client, returning an outcome together with
    the list of `put_object` calls that were issued.

  Python-specific conventions kept by the model: `str` truthiness (both
  `None` and `""` are falsy), `str.strip("/")`, `str.replace("/", "_")`,
  dict-style keyword arguments of `put_object` as a record whose optional
  `ACL` field is `none` when the keyword is not passed.
-/

set_option maxRecDepth 100000

/-! ## SHA-1 over `Nat` (model of `hashlib.sha1(...).hexdigest()`) -/

/-- Reduce modulo 2^32, the word size of SHA-1. -/
def u32 (x : Nat) : Nat := x % 4294967296

/-- Rotate a 32-bit word left by `k` bits. -/
def rotl (k x : Nat) : Nat := ((x <<< k) % 4294967296) ||| (x >>> (32 - k))

/-- Bitwise complement on 32-bit words (operand assumed `< 2^32`). -/
def mask32Not (x : Nat) : Nat := 4294967295 - x

/-- Big-endian 32-bit words from a byte list (groups of four). -/
def wordsOfBytes : List Nat → List Nat
  | b0 :: b1 :: b2 :: b3 :: rest =>
      (((b0 * 256 + b1) * 256 + b2) * 256 + b3) :: wordsOfBytes rest
  | _ => []

/-- The 8-byte big-endian encoding of the message bit length. -/
def lenBytesBE (n : Nat) : List Nat :=
  [(n >>> 56) % 256, (n >>> 48) % 256, (n >>> 40) % 256, (n >>> 32) % 256,
   (n >>> 24) % 256, (n >>> 16) % 256, (n >>> 8) % 256, n % 256]

/-- SHA-1 padding: append `0x80`, zeros to 56 mod 64, then the bit length. -/
def sha1Pad (msg : List Nat) : List Nat :=
  let L := msg.length
  let k := (119 - L % 64) % 64
  msg ++ (128 :: List.replicate k 0) ++ lenBytesBE (8 * L)

/-- Split a byte list into 64-byte blocks (fuel-driven, total). -/
def chunks64Aux : Nat → List Nat → List (List Nat)
  | 0, _ => []
  | _ + 1, [] => []
  | fuel + 1, l => l.take 64 :: chunks64Aux fuel (l.drop 64)

/-- Split a byte list into 64-byte blocks. -/
def chunks64 (l : List Nat) : List (List Nat) := chunks64Aux l.length l

/-- One step of the message-schedule extension, on the reversed schedule. -/
def sha1ExtendRev (rev : List Nat) : Nat :=
  rotl 1 ((((rev.getD 2 0).xor (rev.getD 7 0)).xor (rev.getD 13 0)).xor (rev.getD 15 0))

/-- Extend the reversed schedule by `n` further words. -/
def sha1ScheduleAux : Nat → List Nat → List Nat
  | 0, rev => rev
  | n + 1, rev => sha1ScheduleAux n (sha1ExtendRev rev :: rev)

/-- The 80-word SHA-1 message schedule of one block. -/
def sha1Schedule (w16 : List Nat) : List Nat :=
  (sha1ScheduleAux 64 w16.reverse).reverse

/-- The round function `f_t`. -/
def sha1F (t b c d : Nat) : Nat :=
  if t < 20 then (b &&& c) ||| ((mask32Not b) &&& d)
  else if t < 40 then (b ^^^ c) ^^^ d
  else if t < 60 then ((b &&& c) ||| (b &&& d)) ||| (c &&& d)
  else (b ^^^ c) ^^^ d

/-- The round constant `K_t`. -/
def sha1K (t : Nat) : Nat :=
  if t < 20 then 1518500249
  else if t < 40 then 1859775393
  else if t < 60 then 2400959708
  else 3395469782

/-- The five-word SHA-1 chaining state. -/
structure Sha1State where
  h0 : Nat
  h1 : Nat
  h2 : Nat
  h3 : Nat
  h4 : Nat
  deriving DecidableEq

/-- The SHA-1 initialization vector. -/
def sha1Init : Sha1State :=
  ⟨1732584193, 4023233417, 2562383102, 271733878, 3285377520⟩

/-- One SHA-1 round on the working tuple `(a, b, c, d, e)`. -/
def sha1RoundStep (st : Nat × Nat × Nat × Nat × Nat) (tw : Nat × Nat) :
    Nat × Nat × Nat × Nat × Nat :=
  match st, tw with
  | (a, b, c, d, e), (t, w) =>
    (u32 (rotl 5 a + sha1F t b c d + e + sha1K t + w), a, rotl 30 b, c, d)

/-- Compress one 64-byte block into the chaining state. -/
def sha1Block (st : Sha1State) (block : List Nat) : Sha1State :=
  let ws := sha1Schedule (wordsOfBytes block)
  match ws.enum.foldl sha1RoundStep (st.h0, st.h1, st.h2, st.h3, st.h4) with
  | (a, b, c, d, e) =>
    ⟨u32 (st.h0 + a), u32 (st.h1 + b), u32 (st.h2 + c), u32 (st.h3 + d), u32 (st.h4 + e)⟩

/-- SHA-1 of a byte message, as the final chaining state. -/
def sha1Words (msg : List Nat) : Sha1State :=
  (chunks64 (sha1Pad msg)).foldl sha1Block sha1Init

/-- Lowercase hexadecimal digit, as produced by Python `hexdigest()`. -/
def hexDigit (n : Nat) : Char :=
  Char.ofNat (if n < 10 then 48 + n else 87 + n)

/-- The eight hex characters of one 32-bit word, most significant first. -/
def w2h (w : Nat) : List Char :=
  [hexDigit ((w >>> 28) % 16), hexDigit ((w >>> 24) % 16), hexDigit ((w >>> 20) % 16),
   hexDigit ((w >>> 16) % 16), hexDigit ((w >>> 12) % 16), hexDigit ((w >>> 8) % 16),
   hexDigit ((w >>> 4) % 16), hexDigit (w % 16)]

/-- Model of `hashlib.sha1(msg).hexdigest()` as a list of 40 hex characters. -/
def sha1HexChars (msg : List Nat) : List Char :=
  let s := sha1Words msg
  w2h s.h0 ++ w2h s.h1 ++ w2h s.h2 ++ w2h s.h3 ++ w2h s.h4

/-- UTF-8 encoding of one code point (model of `str.encode("utf-8")`). -/
def utf8Char (c : Char) : List Nat :=
  let n := c.toNat
  if n < 128 then [n]
  else if n < 2048 then [192 + n / 64, 128 + n % 64]
  else if n < 65536 then [224 + n / 4096, 128 + (n / 64) % 64, 128 + n % 64]
  else [240 + n / 262144, 128 + (n / 4096) % 64, 128 + (n / 64) % 64, 128 + n % 64]

/-- UTF-8 encoding of a character sequence. -/
def utf8Bytes (l : List Char) : List Nat :=
  l.foldr (fun c acc => utf8Char c ++ acc) []

/-! ## `urllib.parse.urlparse` (the subset used by `safe_key_from_url`) -/

/-- Python `str.isascii() and str.isalpha()` for a single character. -/
def asciiAlpha (c : Char) : Bool :=
  (97 ≤ c.toNat && c.toNat ≤ 122) || (65 ≤ c.toNat && c.toNat ≤ 90)

/-- ASCII decimal digit test. -/
def asciiDigit (c : Char) : Bool := 48 ≤ c.toNat && c.toNat ≤ 57

/-- Membership in CPython's `scheme_chars`. -/
def schemeChar (c : Char) : Bool :=
  asciiAlpha c || asciiDigit c || c == '+' || c == '-' || c == '.'

/-- ASCII lowercasing, as applied by `urlsplit` to the scheme. -/
def asciiLower (c : Char) : Char :=
  if 65 ≤ c.toNat && c.toNat ≤ 90 then Char.ofNat (c.toNat + 32) else c

/-- Model of `s.split(c, 1)`: the part before the first `c` and the part after it
(`(s, "")` when `c` does not occur). -/
def splitOnFirst (l : List Char) (c : Char) : List Char × List Char :=
  match l.findIdx? (· == c) with
  | some i => (l.take i, l.drop (i + 1))
  | none => (l, [])

/-- The result record of `urllib.parse.urlsplit`. -/
structure SplitResult where
  scheme : List Char
  netloc : List Char
  path : List Char
  query : List Char
  fragment : List Char
  deriving DecidableEq

/-- Model of `urllib.parse.urlsplit(url)` (CPython, `allow_fragments=True`):
leading C0-control/space characters are stripped, tab/CR/LF are removed,
the scheme is recognized when a `:` follows a leading ASCII letter and
`scheme_chars`, `//` introduces the netloc (up to the first of `/?#`,
with the long-standing `ValueError("Invalid IPv6 URL")` when the netloc
has `[` without `]` or vice versa), then the fragment and the query are
split off. The NFKC-normalization check of `_checknetloc` (which can only
fire on certain non-ASCII netlocs) is not modelled. -/
def urlsplitCore (url0 : List Char) : Except String SplitResult :=
  let url1 := (url0.dropWhile (fun c => c.toNat ≤ 32)).filter
    (fun c => !(c == '\t' || c == '\r' || c == '\n'))
  let sr : List Char × List Char :=
    match url1.findIdx? (· == ':') with
    | some i =>
      if 0 < i && asciiAlpha (url1.headD ' ') && (url1.take i).all schemeChar then
        ((url1.take i).map asciiLower, url1.drop (i + 1))
      else ([], url1)
    | none => ([], url1)
  let scheme := sr.1
  let rest := sr.2
  if rest.take 2 = ['/', '/'] then
    let after := rest.drop 2
    let d := after.findIdx (fun c => c == '/' || c == '?' || c == '#')
    let netloc := after.take d
    let rest2 := after.drop d
    if (netloc.contains '[' && !(netloc.contains ']'))
        || (netloc.contains ']' && !(netloc.contains '[')) then
      .error "Invalid IPv6 URL"
    else
      let fr := splitOnFirst rest2 '#'
      let pq := splitOnFirst fr.1 '?'
      .ok ⟨scheme, netloc, pq.1, pq.2, fr.2⟩
  else
    let fr := splitOnFirst rest '#'
    let pq := splitOnFirst fr.1 '?'
    .ok ⟨scheme, [], pq.1, pq.2, fr.2⟩

/-- CPython's `uses_params` scheme list. -/
def usesParams : List (List Char) :=
  [[], "ftp".data, "hdl".data, "prospero".data, "http".data, "imap".data,
   "https".data, "shttp".data, "rtsp".data, "rtspu".data, "sip".data,
   "sips".data, "mms".data, "sftp".data, "tel".data]

/-- Index of the last occurrence of `c` in `l` (meaningful when `c ∈ l`),
as used by `str.rfind`. -/
def rfindIdx (l : List Char) (c : Char) : Nat :=
  l.length - 1 - l.reverse.findIdx (· == c)

/-- Model of `str.find(c, start)`: first index of `c` at or after `start`. -/
def findIdxFrom (l : List Char) (c : Char) (start : Nat) : Option Nat :=
  match (l.drop start).findIdx? (· == c) with
  | some j => some (start + j)
  | none => none

/-- Model of `urllib.parse._splitparams`: split `;params` off the last
path segment only. -/
def splitparams (p : List Char) : List Char × List Char :=
  if p.contains '/' then
    match findIdxFrom p ';' (rfindIdx p '/') with
    | some i => (p.take i, p.drop (i + 1))
    | none => (p, [])
  else
    match findIdxFrom p ';' 0 with
    | some i => (p.take i, p.drop (i + 1))
    | none => (p, [])

/-- The result record of `urllib.parse.urlparse`. -/
structure ParseResult where
  scheme : List Char
  netloc : List Char
  path : List Char
  params : List Char
  query : List Char
  fragment : List Char
  deriving DecidableEq

/-- Model of `urllib.parse.urlparse(url)`: `urlsplit`, then `;params`
split off the path for schemes in `uses_params`. -/
def urlparseCore (url : List Char) : Except String ParseResult :=
  match urlsplitCore url with
  | .error e => .error e
  | .ok s =>
    if usesParams.contains s.scheme && s.path.contains ';' then
      let pp := splitparams s.path
      .ok ⟨s.scheme, s.netloc, pp.1, pp.2, s.query, s.fragment⟩
    else
      .ok ⟨s.scheme, s.netloc, s.path, [], s.query, s.fragment⟩

/-! ## Python string helpers used by `safe_key_from_url` -/

/-- Model of `str.strip("/")`: remove leading and trailing `/` characters. -/
def pyStripSlash (l : List Char) : List Char :=
  ((l.dropWhile (· == '/')).reverse.dropWhile (· == '/')).reverse

/-- Model of `str.replace("/", "_")`. -/
def pyReplaceSlash (l : List Char) : List Char :=
  l.map (fun c => if c = '/' then '_' else c)

/-! ## src/api/main.py -/

/-- Function `region_aware_public_url` (src/api/main.py lines 49-53). -/
def region_aware_public_url (bucket key region : String) : String :=
  if region = "us-east-1" then
    "https://" ++ bucket ++ ".s3.amazonaws.com/" ++ key
  else
    "https://" ++ bucket ++ ".s3." ++ region ++ ".amazonaws.com/" ++ key

/-- Function `safe_key_from_url` (src/api/main.py lines 55-61).  The `Except`
result carries the `ValueError` that `urlparse` can raise. -/
def safe_key_from_url (url : String) : Except String String :=
  match urlparseCore url.data with
  | .error e => .error e
  | .ok parsed =>
    let host_path0 := pyReplaceSlash (pyStripSlash (parsed.netloc ++ parsed.path))
    let host_path := if host_path0 = [] then "root".data else host_path0
    let digest := (sha1HexChars (utf8Bytes url.data)).take 16
    .ok (String.mk ("qr_codes/".data ++ host_path ++ "_".data ++ digest ++ ".png".data))

/-! ## Configuration and request/response records -/

/-- Python truthiness of an optional string: `None` and `""` are falsy. -/
def truthy : Option String → Bool
  | none => false
  | some s => decide (s ≠ "")

/-- Model of `str.startswith(p)`. -/
def startswith (s p : String) : Bool :=
  decide (s.data.take p.data.length = p.data)

/-- The module-level AWS configuration read at process start
(src/api/main.py lines 31-35): `region` already carries the
`"us-east-1"` default of `os.getenv("AWS_REGION", "us-east-1")`. -/
structure AwsConfig where
  region : String
  bucket : Option String
  accessKey : Option String
  secretKey : Option String

/-- Pydantic request model `QRRequest` (src/api/main.py lines 64-65). -/
structure QRRequest where
  url : Option String
  deriving DecidableEq

/-- A Python exception, as far as the handlers distinguish them:
botocore's `ClientError`, a `ValueError`, or any other `Exception`. -/
inductive PyExn where
  | clientError (msg : String)
  | valueError (msg : String)
  | other (msg : String)
  deriving DecidableEq

/-- The message carried by an exception (`str(e)`). -/
def excMsg : PyExn → String
  | .clientError m => m
  | .valueError m => m
  | .other m => m

/-- One `s3.put_object(...)` call with exactly the keyword arguments the
service passes; `acl` is the optional `ACL` keyword, `none` when the
keyword is not passed at all. -/
structure PutCall where
  bucket : String
  key : String
  body : List Nat
  contentType : String
  cacheControl : String
  acl : Option String
  deriving DecidableEq

/-- Oracle for the external S3 client: head-bucket, put-object, and
presigned-GET generation, each allowed to raise. -/
structure S3Oracle where
  headBucket : String → Except PyExn String
  put : PutCall → Except PyExn Unit
  presign : String → String → Nat → Except PyExn String

/-- Oracle for the QR encoding pipeline (`qrcode.QRCode(...)`,
`make_image`, `img.save`): PNG bytes for the text, or an exception. -/
structure QrEncoder where
  encode : String → Except PyExn (List Nat)

/-- What a handler invocation observably does: a JSON response, a raised
`HTTPException` (status and detail), or an exception that escapes the
handler uncaught. -/
inductive HandlerOutcome (α : Type) where
  | resp (r : α)
  | httpExc (status : Nat) (detail : String)
  | uncaught (e : PyExn)
  deriving DecidableEq

/-- Response of `POST /generate-qr/`. -/
structure GenResponse where
  ok : Bool
  bucket : String
  key : String
  public_url : String
  presigned_url : String
  source_url : String
  deriving DecidableEq

/-- Response of `GET /s3-diagnose`. -/
structure DiagResponse where
  ok : Bool
  configured_region : String
  bucket_head_result : String
  presigned_get : String
  deriving DecidableEq

/-- Response of `GET /env-check`. -/
structure EnvCheckResponse where
  aws_access_key_set : Bool
  aws_secret_key_set : Bool
  aws_region : String
  aws_bucket_name : Option String
  deriving DecidableEq

/-! ## The handlers -/

/-- Handler `env_check` (src/api/main.py lines 72-79): presence booleans for the
credentials, plus region and bucket echo. -/
def env_check (cfg : AwsConfig) : EnvCheckResponse :=
  { aws_access_key_set := truthy cfg.accessKey
    aws_secret_key_set := truthy cfg.secretKey
    aws_region := cfg.region
    aws_bucket_name := cfg.bucket }

/-- Model of `final_url = (req.url if (req and req.url) else url)`
(src/api/main.py line 121): the body URL wins only when it is truthy. -/
def resolve_url (req : Option QRRequest) (url : Option String) : Option String :=
  match req with
  | some r => if truthy r.url then r.url else url
  | none => url

/-- Detail string of the missing-URL `HTTPException` (line 123). -/
def missingUrlMsg : String := "Provide \x27url\x27 in JSON body or as ?url=..."

/-- Detail string of the bad-scheme `HTTPException` (line 125). -/
def schemeMsg : String := "url must start with http:// or https://"

/-- The `put_object` call issued by `generate_qr`
(src/api/main.py lines 148-154): no `ACL` keyword. -/
def genPutCall (bucket key : String) (body : List Nat) : PutCall :=
  { bucket := bucket, key := key, body := body, contentType := "image/png",
    cacheControl := "public, max-age=31536000, immutable", acl := none }

/-- The `put_object` call issued by `s3_diagnose`
(src/api/main.py lines 91-97): no `ACL` keyword. -/
def diagPutCall (bucket : String) : PutCall :=
  { bucket := bucket, key := "healthchecks/diagnostic.txt",
    body := utf8Bytes "diag-ok\n".data, contentType := "text/plain",
    cacheControl := "public, max-age=60", acl := none }

/-- The `try` block of `generate_qr` (src/api/main.py lines 146-175):
put the object, build the best-effort public URL, generate the presigned
URL; `ClientError` and any other exception are each converted to a
structured 500 `HTTPException`. -/
def s3TryBlock (cfg : AwsConfig) (s3c : S3Oracle) (bucket key : String)
    (body : List Nat) (u : String) : HandlerOutcome GenResponse × List PutCall :=
  let call := genPutCall bucket key body
  match s3c.put call with
  | .error (.clientError m) => (.httpExc 500 ("S3 error: " ++ m), [call])
  | .error e => (.httpExc 500 (excMsg e), [call])
  | .ok _ =>
    let pub := region_aware_public_url bucket key cfg.region
    match s3c.presign bucket key 900 with
    | .error (.clientError m) => (.httpExc 500 ("S3 error: " ++ m), [call])
    | .error e => (.httpExc 500 (excMsg e), [call])
    | .ok psu =>
      (.resp { ok := true, bucket := bucket, key := key, public_url := pub,
               presigned_url := psu, source_url := u }, [call])

/-- Handler `generate_qr` (src/api/main.py lines 112-175), as a pure function of
the configuration, the two oracles, the optional JSON body and the
optional query parameter.  Returns the outcome together with the list of
`put_object` calls issued.  The `try` block of the source covers only
`put_object` and `generate_presigned_url`; URL parsing and QR encoding
run before it, so exceptions raised there escape the handler. -/
def generate_qr (cfg : AwsConfig) (enc : QrEncoder) (s3c : S3Oracle)
    (req : Option QRRequest) (url : Option String) :
    HandlerOutcome GenResponse × List PutCall :=
  match resolve_url req url with
  | none => (.httpExc 400 missingUrlMsg, [])
  | some u =>
    if u = "" then (.httpExc 400 missingUrlMsg, [])
    else if startswith u "http://" || startswith u "https://" then
      if truthy cfg.bucket = false then
        (.httpExc 500 "AWS_BUCKET_NAME is not set", [])
      else
        let bucket := cfg.bucket.getD ""
        match safe_key_from_url u with
        | .error m => (.uncaught (.valueError m), [])
        | .ok key =>
          match enc.encode u with
          | .error e => (.uncaught e, [])
          | .ok body => s3TryBlock cfg s3c bucket key body u
    else (.httpExc 400 schemeMsg, [])

/-- Handler `s3_diagnose` (src/api/main.py lines 81-110): head bucket, tiny
diagnostic put without ACL, short-TTL presigned GET.  Only `ClientError`
is caught by its `try` block. -/
def s3_diagnose (cfg : AwsConfig) (s3c : S3Oracle) :
    HandlerOutcome DiagResponse × List PutCall :=
  if truthy cfg.bucket = false then
    (.httpExc 500 "AWS_BUCKET_NAME is not set", [])
  else
    let bucket := cfg.bucket.getD ""
    match s3c.headBucket bucket with
    | .error (.clientError m) => (.httpExc 500 ("S3 diagnose error: " ++ m), [])
    | .error e => (.uncaught e, [])
    | .ok hb =>
      let call := diagPutCall bucket
      match s3c.put call with
      | .error (.clientError m) => (.httpExc 500 ("S3 diagnose error: " ++ m), [call])
      | .error e => (.uncaught e, [call])
      | .ok _ =>
        match s3c.presign bucket "healthchecks/diagnostic.txt" 300 with
        | .error (.clientError m) => (.httpExc 500 ("S3 diagnose error: " ++ m), [call])
        | .error e => (.uncaught e, [call])
        | .ok ps =>
          (.resp { ok := true, configured_region := cfg.region,
                   bucket_head_result := hb, presigned_get := ps }, [call])

/-! ## Spec-side characterization of the storage key -/

/-- Spec wording of the slug: the host concatenated with the path,
stripped of leading and trailing `/`, every remaining `/` replaced by
`_`, with the fixed literal placeholder `"root"` substituted when that
slug is empty. -/
def slugFrom (host path : List Char) : List Char :=
  let raw := pyReplaceSlash (pyStripSlash (host ++ path))
  if raw = [] then "root".data else raw

/-- Spec wording of the hash suffix: the first 16 hexadecimal characters
of the SHA-1 digest of the original, unmodified URL string. -/
def sha1Hex16 (url : String) : List Char :=
  (sha1HexChars (utf8Bytes url.data)).take 16

/-- Lowercase hexadecimal character test. -/
def isHexChar (c : Char) : Bool := "0123456789abcdef".data.contains c

/-! ## Concrete fixtures for witnesses -/

/-- A fully configured environment. -/
def cfg0 : AwsConfig := ⟨"us-east-1", some "bkt", some "AKIAEXAMPLE", some "SECRETEXAMPLE"⟩

/-- An encoder oracle that always succeeds with fixed PNG bytes. -/
def enc0 : QrEncoder := ⟨fun _ => .ok [137, 80, 78, 71]⟩

/-- An S3 oracle on which every operation succeeds. -/
def s3ok : S3Oracle :=
  ⟨fun _ => .ok "200", fun _ => .ok (), fun _ _ _ => .ok "https://presigned.example"⟩

/-- An encoder oracle whose encoding step raises a non-`ClientError`
exception. -/
def encBoom : QrEncoder := ⟨fun _ => .error (.other "boom")⟩

/-- The detail string produced by the two `except` clauses of the
`try` block: `"S3 error: " ++ msg` for a `ClientError`, the bare
message for any other exception. -/
def tryMsg : PyExn → String
  | .clientError m => "S3 error: " ++ m
  | e => excMsg e

/-- An S3 oracle whose put raises a non-`ClientError` exception. -/
def s3putFail : S3Oracle :=
  ⟨fun _ => .ok "200", fun _ => .error (.other "disk full"),
   fun _ _ _ => .ok "https://presigned.example"⟩

/-! ## Validation of the model against reference outputs -/

example : sha1HexChars (utf8Bytes "abc".data)
    = "a9993e364706816aba3e25717850c26c9cd0d89d".data := by decide

example : sha1HexChars (utf8Bytes "".data)
    = "da39a3ee5e6b4b0d3255bfef95601890afd80709".data := by decide

example : safe_key_from_url "https://example.com/page"
    = .ok "qr_codes/example.com_page_bf705e83e05bb973.png" := by rfl

example : safe_key_from_url "https://x.com/a/b/c/"
    = .ok "qr_codes/x.com_a_b_c_e2834c95ac531db6.png" := by rfl

example : safe_key_from_url "https://"
    = .ok "qr_codes/root_a9a13761cc52db0d.png" := by rfl

example : safe_key_from_url "http://u@h:1/p;q?x#y"
    = .ok "qr_codes/u@h:1_p_a2357921146a7bca.png" := by rfl

/-! ## Helper lemmas -/

/-- When the parser succeeds, the key has exactly the shape
`"qr_codes/" ++ slug ++ "_" ++ hash16 ++ ".png"`. -/
theorem safe_key_eq_ok (url : String) (p : ParseResult)
    (h : urlparseCore url.data = .ok p) :
    safe_key_from_url url
      = .ok (String.mk ("qr_codes/".data ++ slugFrom p.netloc p.path
          ++ "_".data ++ sha1Hex16 url ++ ".png".data)) := by
  simp [safe_key_from_url, h, slugFrom, sha1Hex16]

/-- The full hex digest has 40 characters. -/
theorem sha1HexChars_length (msg : List Nat) : (sha1HexChars msg).length = 40 := by
  simp [sha1HexChars, w2h]

/-- The truncated hash suffix has exactly 16 characters. -/
theorem sha1Hex16_length (url : String) : (sha1Hex16 url).length = 16 := by
  rw [sha1Hex16, List.length_take, sha1HexChars_length]
  decide

/-- Every value of `hexDigit` on inputs below 16 is a hex character. -/
theorem hexDigit_isHex : ∀ m : Fin 16, isHexChar (hexDigit m.val) = true := by decide

/-- Every reduced `hexDigit` value is a hex character. -/
theorem hexDigit_mod_isHex (n : Nat) : isHexChar (hexDigit (n % 16)) = true :=
  hexDigit_isHex ⟨n % 16, Nat.mod_lt n (by decide)⟩

/-- All characters printed for one word are hex characters. -/
theorem w2h_all_hex (w : Nat) : ∀ c ∈ w2h w, isHexChar c = true := by
  intro c hc
  simp only [w2h, List.mem_cons, List.not_mem_nil, or_false] at hc
  rcases hc with h | h | h | h | h | h | h | h <;> subst h <;>
    exact hexDigit_mod_isHex _

/-- All characters of the hex digest are hex characters. -/
theorem sha1HexChars_all_hex (msg : List Nat) :
    ∀ c ∈ sha1HexChars msg, isHexChar c = true := by
  intro c hc
  simp only [sha1HexChars, List.mem_append] at hc
  rcases hc with ((((h | h) | h) | h) | h) <;> exact w2h_all_hex _ c h

/-- All characters of the truncated hash suffix are hex characters. -/
theorem sha1Hex16_all_hex (url : String) :
    ∀ c ∈ sha1Hex16 url, isHexChar c = true := by
  intro c hc
  exact sha1HexChars_all_hex _ c (List.take_subset _ _ hc)

/-- Replacing every `/` by `_` leaves no `/` in the list. -/
theorem pyReplaceSlash_no_slash (l : List Char) : '/' ∉ pyReplaceSlash l := by
  intro hmem
  obtain ⟨c, _, hc⟩ := List.mem_map.mp hmem
  by_cases h : c = '/'
  · subst h
    rw [if_pos rfl] at hc
    exact absurd hc (by decide)
  · rw [if_neg h] at hc
    exact h hc

/-- The slug never contains a `/`. -/
theorem slugFrom_no_slash (host path : List Char) : '/' ∉ slugFrom host path := by
  have h : slugFrom host path
      = if pyReplaceSlash (pyStripSlash (host ++ path)) = []
        then "root".data else pyReplaceSlash (pyStripSlash (host ++ path)) := rfl
  rw [h]
  split
  · decide
  · exact pyReplaceSlash_no_slash _

/-- The truncated hash suffix never contains a `/`. -/
theorem sha1Hex16_no_slash (url : String) : '/' ∉ sha1Hex16 url := by
  intro hmem
  exact absurd (sha1Hex16_all_hex url '/' hmem) (by decide)

/-- Counting `/` in a key of the canonical shape gives exactly one. -/
theorem key_count_slash (hp d : List Char) (hhp : '/' ∉ hp) (hd : '/' ∉ d) :
    ("qr_codes/".data ++ hp ++ "_".data ++ d ++ ".png".data).count '/' = 1 := by
  have h1 : ("qr_codes/".data).count '/' = 1 := by decide
  have h2 : ("_".data).count '/' = 0 := by decide
  have h3 : (".png".data).count '/' = 0 := by decide
  simp [List.count_append, h1, h2, h3,
    List.count_eq_zero.mpr hhp, List.count_eq_zero.mpr hd]

/-! ## Claim C1 -/

/-- C1 counterexample: the key deriver is not total.  On the input
`"http://["` the underlying URL parser raises
`ValueError("Invalid IPv6 URL")` (unbalanced bracket in the authority),
so no string of the claimed form is returned. -/
theorem safe_key_not_total_cex :
    safe_key_from_url "http://[" = .error "Invalid IPv6 URL" := by rfl

/-- C1 (amended): whenever the URL parser succeeds on `url` (it raises a
`ValueError` on an authority with an unbalanced square bracket), the key
deriver returns exactly `"qr_codes/" ++ slug ++ "_" ++ h ++ ".png"`,
where the slug is the host concatenated with the path, stripped of
leading and trailing `/`, every remaining `/` replaced by `_`, with the
literal placeholder `"root"` when empty, and `h` consists of the first
16 hexadecimal characters of the SHA-1 digest of the original,
unmodified `url` string (not of the slug). -/
theorem safe_key_spec_shape (url : String) (p : ParseResult)
    (h : urlparseCore url.data = .ok p) :
    safe_key_from_url url
      = .ok (String.mk ("qr_codes/".data ++ slugFrom p.netloc p.path
          ++ "_".data ++ sha1Hex16 url ++ ".png".data))
    ∧ (sha1Hex16 url).length = 16
    ∧ (∀ c ∈ sha1Hex16 url, isHexChar c = true) :=
  ⟨safe_key_eq_ok url p h, sha1Hex16_length url, sha1Hex16_all_hex url⟩

/-- Witness for C1 at the concrete URL `"https://example.com/page"`. -/
theorem safe_key_spec_shape_witness :
    safe_key_from_url "https://example.com/page"
      = .ok (String.mk ("qr_codes/".data
          ++ slugFrom "example.com".data "/page".data
          ++ "_".data ++ sha1Hex16 "https://example.com/page" ++ ".png".data))
    ∧ (sha1Hex16 "https://example.com/page").length = 16
    ∧ (∀ c ∈ sha1Hex16 "https://example.com/page", isHexChar c = true) :=
  safe_key_spec_shape "https://example.com/page"
    ⟨"https".data, "example.com".data, "/page".data, [], [], []⟩ (by rfl)

/-! ## Claim C5 -/

/-- C5: every key the deriver returns contains exactly one `/`
character, the fixed one after the `"qr_codes"` namespace: the slug and
the hash suffix are `/`-free. -/
theorem safe_key_single_slash (url : String) (k : String)
    (h : safe_key_from_url url = .ok k) : k.data.count '/' = 1 := by
  cases hp : urlparseCore url.data with
  | error e => simp [safe_key_from_url, hp] at h
  | ok p =>
    have hk := safe_key_eq_ok url p hp
    rw [h] at hk
    injection hk with hk
    subst hk
    exact key_count_slash _ _ (slugFrom_no_slash p.netloc p.path) (sha1Hex16_no_slash url)

/-- Witness for C5 at the concrete URL `"https://a.com"`. -/
theorem safe_key_single_slash_witness :
    ("qr_codes/a.com_e5c1f0f86ea666d8.png" : String).data.count '/' = 1 :=
  safe_key_single_slash "https://a.com" "qr_codes/a.com_e5c1f0f86ea666d8.png" rfl

/-! ## Claim C6 -/

/-- C6: the key deriver is a deterministic pure function — two calls on
the same URL return the identical string — and consequently the whole
generate handler, for fixed configuration and oracles, behaves
identically on two runs with the same inputs, so the same URL targets
the same storage key both times (idempotent overwrite of one object). -/
theorem derive_key_deterministic :
    (∀ u : String, safe_key_from_url u = safe_key_from_url u)
    ∧ ∀ (cfg : AwsConfig) (enc : QrEncoder) (s3c : S3Oracle)
        (req : Option QRRequest) (q : Option String),
        generate_qr cfg enc s3c req q = generate_qr cfg enc s3c req q :=
  ⟨fun _ => rfl, fun _ _ _ _ _ => rfl⟩

/-! ## Claim C7 -/

/-- C7: two URLs can only collide on the same storage key when the
truncated 16-character hashes of the two full URL strings coincide: the
hash suffix occupies a fixed-length position in the key, so key equality
forces hash equality. -/
theorem safe_key_collision_forces_hash_collision (u1 u2 : String) (k : String)
    (h1 : safe_key_from_url u1 = .ok k) (h2 : safe_key_from_url u2 = .ok k) :
    sha1Hex16 u1 = sha1Hex16 u2 := by
  cases hp1 : urlparseCore u1.data with
  | error e => simp [safe_key_from_url, hp1] at h1
  | ok p1 =>
    cases hp2 : urlparseCore u2.data with
    | error e => simp [safe_key_from_url, hp2] at h2
    | ok p2 =>
      have e1 := safe_key_eq_ok u1 p1 hp1
      have e2 := safe_key_eq_ok u2 p2 hp2
      rw [h1] at e1
      rw [h2] at e2
      injection e1.symm.trans e2 with e
      injection e with hAB
      simp only [← List.append_assoc] at hAB
      have h3 := List.append_cancel_right hAB
      exact (List.append_inj' h3 (by rw [sha1Hex16_length, sha1Hex16_length])).2

/-- Witness for C7: key equality at a concrete input forces equality of
the truncated hashes. -/
theorem safe_key_collision_forces_hash_collision_witness :
    sha1Hex16 "https://a.com" = sha1Hex16 "https://a.com" :=
  safe_key_collision_forces_hash_collision "https://a.com" "https://a.com"
    "qr_codes/a.com_e5c1f0f86ea666d8.png" rfl rfl

/-! ## Claim C2 -/

/-- C2: the handler uses exactly one effective URL.  A truthy body URL
wins: the resolved value is the body URL, and the handler result does
not depend on the query parameter at all.  When neither the body nor the
query yields a truthy URL the handler returns the 400 missing-URL error
with no storage call, whatever the oracles would do. -/
theorem generate_qr_effective_url :
    (∀ (r : QRRequest) (u : String) (q : Option String),
        r.url = some u → u ≠ "" → resolve_url (some r) q = some u)
    ∧ (∀ (cfg : AwsConfig) (enc : QrEncoder) (s3c : S3Oracle) (r : QRRequest)
        (u : String) (q : Option String), r.url = some u → u ≠ "" →
        generate_qr cfg enc s3c (some r) q = generate_qr cfg enc s3c (some r) none)
    ∧ (∀ (cfg : AwsConfig) (enc : QrEncoder) (s3c : S3Oracle)
        (req : Option QRRequest) (q : Option String),
        truthy (resolve_url req q) = false →
        generate_qr cfg enc s3c req q = (.httpExc 400 missingUrlMsg, [])) := by
  have hres : ∀ (r : QRRequest) (u : String) (q : Option String),
      r.url = some u → u ≠ "" → resolve_url (some r) q = some u := by
    intro r u q hr hu
    simp [resolve_url, truthy, hr, hu]
  refine ⟨hres, ?_, ?_⟩
  · intro cfg enc s3c r u q hr hu
    unfold generate_qr
    rw [hres r u q hr hu, hres r u none hr hu]
  · intro cfg enc s3c req q h
    cases hr : resolve_url req q with
    | none => simp [generate_qr, hr]
    | some u =>
      rw [hr] at h
      simp only [truthy, decide_eq_false_iff_not, not_not] at h
      subst h
      simp [generate_qr, hr]

/-- Witness for C2: body `https://a.com` beats query `https://b.com`,
and with neither source the handler returns the 400 error. -/
theorem generate_qr_effective_url_witness :
    resolve_url (some ⟨some "https://a.com"⟩) (some "https://b.com") = some "https://a.com"
    ∧ generate_qr cfg0 enc0 s3ok (some ⟨some "https://a.com"⟩) (some "https://b.com")
        = generate_qr cfg0 enc0 s3ok (some ⟨some "https://a.com"⟩) none
    ∧ generate_qr cfg0 enc0 s3ok none none = (.httpExc 400 missingUrlMsg, []) :=
  ⟨generate_qr_effective_url.1 ⟨some "https://a.com"⟩ "https://a.com"
      (some "https://b.com") rfl (by decide),
   generate_qr_effective_url.2.1 cfg0 enc0 s3ok ⟨some "https://a.com"⟩ "https://a.com"
      (some "https://b.com") rfl (by decide),
   generate_qr_effective_url.2.2 cfg0 enc0 s3ok none none (by decide)⟩

/-! ## Claim C3 -/

/-- C3: when the effective URL does not start with `http://` or
`https://`, the handler returns a 400 client error and the put-call
trace is empty, for every encoder and storage oracle: the rejection
happens before key derivation, QR encoding, and the storage put. -/
theorem generate_qr_scheme_gate :
    ∀ (cfg : AwsConfig) (enc : QrEncoder) (s3c : S3Oracle)
      (req : Option QRRequest) (q : Option String) (u : String),
      resolve_url req q = some u →
      (startswith u "http://" || startswith u "https://") = false →
      ∃ d, generate_qr cfg enc s3c req q = (.httpExc 400 d, []) := by
  intro cfg enc s3c req q u hres hs
  by_cases hu : u = ""
  · subst hu
    exact ⟨missingUrlMsg, by simp [generate_qr, hres]⟩
  · exact ⟨schemeMsg, by simp [generate_qr, hres, hu, hs]⟩

/-- Witness for C3 at the concrete URL `ftp://x.com`. -/
theorem generate_qr_scheme_gate_witness :
    ∃ d, generate_qr cfg0 enc0 s3ok (some ⟨some "ftp://x.com"⟩) none
      = (.httpExc 400 d, []) :=
  generate_qr_scheme_gate cfg0 enc0 s3ok (some ⟨some "ftp://x.com"⟩) none
    "ftp://x.com" rfl (by decide)

/-! ## Claim C10 -/

/-- C10: a JSON body whose `url` field is the empty string or null is
treated as supplying no URL — the handler behaves exactly as if no body
had been sent, falling back to the query parameter — while a non-empty
body URL is the resolved value regardless of the query parameter. -/
theorem generate_qr_empty_body_url_fallback :
    (∀ (cfg : AwsConfig) (enc : QrEncoder) (s3c : S3Oracle) (q : Option String),
        generate_qr cfg enc s3c (some ⟨some ""⟩) q = generate_qr cfg enc s3c none q
        ∧ generate_qr cfg enc s3c (some ⟨none⟩) q = generate_qr cfg enc s3c none q)
    ∧ (∀ (r : QRRequest) (u : String) (q : Option String), r.url = some u → u ≠ "" →
        resolve_url (some r) q = some u) := by
  constructor
  · intro cfg enc s3c q
    constructor
    · have h : resolve_url (some ⟨some ""⟩) q = resolve_url none q := by
        simp [resolve_url, truthy]
      unfold generate_qr
      rw [h]
    · have h : resolve_url (some ⟨none⟩) q = resolve_url none q := by
        simp [resolve_url, truthy]
      unfold generate_qr
      rw [h]
  · intro r u q hr hu
    simp [resolve_url, truthy, hr, hu]

/-- Witness for C10: a concrete non-empty body URL wins over a query. -/
theorem generate_qr_empty_body_url_fallback_witness :
    resolve_url (some ⟨some "https://c.com"⟩) (some "https://d.com") = some "https://c.com" :=
  generate_qr_empty_body_url_fallback.2 ⟨some "https://c.com"⟩ "https://c.com"
    (some "https://d.com") rfl (by decide)

/-! ## Claim C4 -/

/-- C4 counterexample: an exception raised during QR encoding is NOT
caught at the handler boundary.  The `try` block of the source starts
only at the `put_object` call, so with an encoder that raises a plain
exception the handler lets it escape instead of returning a structured
500 response. -/
theorem generate_qr_encode_exn_escapes_cex :
    generate_qr cfg0 encBoom s3ok none (some "https://a.com")
      = (.uncaught (.other "boom"), []) := by rfl

/-- C4 (amended): only exceptions raised inside the storage phase — the
`put_object` call or the presigned-URL generation, i.e. the extent of
the source's `try` block — are caught at that boundary and reported as a
structured 500 carrying the exception's message; exceptions raised
earlier (URL parsing, QR encoding) escape the handler uncaught. -/
theorem generate_qr_storage_exn_caught :
    ∀ (cfg : AwsConfig) (enc : QrEncoder) (s3c : S3Oracle)
      (req : Option QRRequest) (q : Option String) (u bucket key : String)
      (body : List Nat),
      resolve_url req q = some u → u ≠ "" →
      (startswith u "http://" || startswith u "https://") = true →
      cfg.bucket = some bucket → bucket ≠ "" →
      safe_key_from_url u = .ok key →
      enc.encode u = .ok body →
      (∀ e, s3c.put (genPutCall bucket key body) = .error e →
        generate_qr cfg enc s3c req q
          = (.httpExc 500 (tryMsg e), [genPutCall bucket key body]))
      ∧ (∀ e, s3c.put (genPutCall bucket key body) = .ok () →
          s3c.presign bucket key 900 = .error e →
          generate_qr cfg enc s3c req q
            = (.httpExc 500 (tryMsg e), [genPutCall bucket key body])) := by
  intro cfg enc s3c req q u bucket key body hres hu hsw hb hbne hkey henc
  constructor
  · intro e hput
    cases e <;>
      simp [generate_qr, s3TryBlock, hres, hu, hsw, hb, truthy, hbne, hkey, henc, hput,
        tryMsg, excMsg]
  · intro e hput hpres
    cases e <;>
      simp [generate_qr, s3TryBlock, hres, hu, hsw, hb, truthy, hbne, hkey, henc, hput,
        hpres, tryMsg, excMsg]

/-- Witness for C4 (amended): a non-`ClientError` put failure at a
concrete input is reported as a structured 500 with the message. -/
theorem generate_qr_storage_exn_caught_witness :
    generate_qr cfg0 enc0 s3putFail none (some "https://a.com")
      = (.httpExc 500 (tryMsg (.other "disk full")),
         [genPutCall "bkt" "qr_codes/a.com_e5c1f0f86ea666d8.png" [137, 80, 78, 71]]) :=
  (generate_qr_storage_exn_caught cfg0 enc0 s3putFail none (some "https://a.com")
      "https://a.com" "bkt" "qr_codes/a.com_e5c1f0f86ea666d8.png" [137, 80, 78, 71]
      rfl (by decide) (by decide) rfl (by decide) (by rfl) rfl).1
    (.other "disk full") rfl

/-! ## Claim C8 -/

/-- C8: the env-check response exposes the credentials only as presence
booleans — two configurations with equal credential truthiness produce
identical credential fields, whatever the literal key and secret values
are — and beyond that it echoes only the region and the bucket name. -/
theorem env_check_no_secret_leak :
    (∀ c1 c2 : AwsConfig,
        truthy c1.accessKey = truthy c2.accessKey →
        truthy c1.secretKey = truthy c2.secretKey →
        (env_check c1).aws_access_key_set = (env_check c2).aws_access_key_set
        ∧ (env_check c1).aws_secret_key_set = (env_check c2).aws_secret_key_set)
    ∧ (∀ c : AwsConfig, (env_check c).aws_region = c.region
        ∧ (env_check c).aws_bucket_name = c.bucket) :=
  ⟨fun _ _ h1 h2 => ⟨h1, h2⟩, fun _ => ⟨rfl, rfl⟩⟩

/-- Witness for C8: two configurations with different literal
credentials but the same presence yield identical credential fields. -/
theorem env_check_no_secret_leak_witness :
    (env_check ⟨"us-east-1", some "bkt", some "AKIA111", some "topsecret1"⟩).aws_access_key_set
      = (env_check ⟨"us-east-1", some "bkt", some "AKIA222", some "topsecret2"⟩).aws_access_key_set
    ∧ (env_check ⟨"us-east-1", some "bkt", some "AKIA111", some "topsecret1"⟩).aws_secret_key_set
      = (env_check ⟨"us-east-1", some "bkt", some "AKIA222", some "topsecret2"⟩).aws_secret_key_set :=
  env_check_no_secret_leak.1
    ⟨"us-east-1", some "bkt", some "AKIA111", some "topsecret1"⟩
    ⟨"us-east-1", some "bkt", some "AKIA222", some "topsecret2"⟩
    (by decide) (by decide)

/-! ## Claim C9 -/

/-- Every put call recorded by the try block carries no ACL keyword. -/
theorem s3TryBlock_trace_acl (cfg : AwsConfig) (s3c : S3Oracle) (bucket key : String)
    (body : List Nat) (u : String) :
    ((s3TryBlock cfg s3c bucket key body u).2.all (fun c => c.acl.isNone)) = true := by
  simp only [s3TryBlock]
  cases s3c.put (genPutCall bucket key body) with
  | error e => cases e <;> simp [genPutCall]
  | ok a =>
    cases s3c.presign bucket key 900 with
    | error e => cases e <;> simp [genPutCall]
    | ok psu => simp [genPutCall]

/-- C9: every `put_object` call either handler ever issues — the
generate-qr upload and the diagnostic upload — carries no ACL keyword:
the `acl` field of every call in the trace is `none`, whatever the
configuration, request, and oracles. -/
theorem put_calls_carry_no_acl :
    (∀ (cfg : AwsConfig) (enc : QrEncoder) (s3c : S3Oracle)
        (req : Option QRRequest) (q : Option String),
        ((generate_qr cfg enc s3c req q).2.all (fun c => c.acl.isNone)) = true)
    ∧ (∀ (cfg : AwsConfig) (s3c : S3Oracle),
        ((s3_diagnose cfg s3c).2.all (fun c => c.acl.isNone)) = true) := by
  constructor
  · intro cfg enc s3c req q
    simp only [generate_qr]
    repeat' split
    all_goals first
      | exact s3TryBlock_trace_acl ..
      | simp
  · intro cfg s3c
    simp only [s3_diagnose]
    by_cases hbf : truthy cfg.bucket = false
    · rw [if_pos hbf]
      simp
    · rw [if_neg hbf]
      cases s3c.headBucket (cfg.bucket.getD "") with
      | error e => cases e <;> simp
      | ok hb =>
        cases s3c.put (diagPutCall (cfg.bucket.getD "")) with
        | error e => cases e <;> simp [diagPutCall]
        | ok a =>
          cases s3c.presign (cfg.bucket.getD "") "healthchecks/diagnostic.txt" 300 with
          | error e => cases e <;> simp [diagPutCall]
          | ok ps => simp [diagPutCall]
